import Mathlib

/-!
Shallow embedding of `src/setup.py` (elastic-crawler provisioning script).

The script provisions three Elasticsearch ingest pipelines (normalizer,
embedding, composite) with a check-then-create pattern.  We model the
Elasticsearch cluster as a state: which pipeline ids / inference endpoint
ids exist, plus fault-injection predicates saying which calls raise a
non-NotFound error or fail.  Every embedded function returns the Python
result (`PyResult`, where `.exn` is an uncaught Python exception), the
resulting cluster state, and the trace of API calls issued, in order.
-/

namespace ElasticCrawler

/-- A JSON-like value, used to embed the Python dict literals that define
pipeline processors and inference service settings. -/
inductive JsonVal where
  | str : String → JsonVal
  | bool : Bool → JsonVal
  | arr : List JsonVal → JsonVal
  | obj : List (String × JsonVal) → JsonVal
deriving Repr

/-- Result of running a piece of Python code: a value, or an uncaught
exception carrying its message. -/
inductive PyResult (α : Type) where
  | ok : α → PyResult α
  | exn : String → PyResult α
deriving Repr, DecidableEq

/-- One API call issued against the Elasticsearch cluster. -/
inductive ESEvent where
  | getPipeline (id : String)
  | putPipeline (id description : String) (processors : List JsonVal)
  | getInference (task_type id : String)
  | putInference (id task_type : String) (service_settings : List (String × JsonVal))
deriving Repr

/-- The modelled Elasticsearch cluster: which resources exist, and which
calls misbehave.  `getPipelineErrors id = true` means `get_pipeline(id)`
raises an error other than `NotFoundError`; `putPipelineFails id = true`
means `put_pipeline(id, ...)` raises; similarly for inference calls. -/
structure ESState where
  pipelines : String → Bool
  inferenceEndpoints : String → Bool
  getPipelineErrors : String → Bool
  putPipelineFails : String → Bool
  getInferenceErrors : String → Bool
  putInferenceFails : String → Bool

/-- `EMBEDDING_MODEL_ID` (setup.py line 8). -/
def EMBEDDING_MODEL_ID : String := "text-embedding-005"

/-- `JOIN_HEADERS_PROCESSOR` (setup.py lines 9-15). -/
def JOIN_HEADERS_PROCESSOR : JsonVal :=
  .obj [("join", .obj [
    ("field", .str "headings"),
    ("separator", .str ", "),
    ("on_failure", .arr [.obj [("set", .obj [
      ("field", .str "headings"), ("value", .str "")])]])])]

/-- `SET_BODY_PROCESSOR` (setup.py lines 16-25). -/
def SET_BODY_PROCESSOR : JsonVal :=
  .obj [("set", .obj [
    ("field", .str "text"),
    ("value", .str "\n      Meta Description: \x7b\x7b\x7bmeta_description\x7d\x7d\x7d\n      Headings: \x7b\x7b\x7bheadings\x7d\x7d\x7d\n      Body: \x7b\x7b\x7bbody\x7d\x7d\x7d \x7b\x7b\x7bbody_content\x7d\x7d\x7d\n    ")])]

/-- `REMOVE_FIELDS_PROCESSOR` (setup.py lines 26-53): a painless script
removing scratch fields; the script source is carried as an opaque string. -/
def REMOVE_FIELDS_PROCESSOR : JsonVal :=
  .obj [("script", .obj [
    ("source", .str "\n          String[] fieldsToRemove = new String[] \x7b\n            \"body\",\n            \"body_content\",\n            \"meta_description\",\n            \"headings\",\n            \"links\",\n            \"url_port\",\n            \"url_host\",\n            \"url_path\",\n            \"url_path_dir1\",\n            \"url_path_dir2\",\n            \"url_path_dir3\",\n            \"additional_urls\",\n            \"domains\",\n            \"url_scheme\"\n          \x7d;\n          for (field in fieldsToRemove) \x7b\n              if (ctx.containsKey(field)) \x7b\n                  ctx.remove(field);\n              \x7d\n          \x7d\n        "),
    ("description", .str "Runs a script to remove unnecessary fields")])]

/-- `SET_DATES_PROCESSOR` (setup.py lines 54-66). -/
def SET_DATES_PROCESSOR : JsonVal :=
  .obj [("script", .obj [
    ("source", .str "\n        if (ctx.containsKey(\"last_crawled_at\") && ctx.last_crawled_at != null) \x7b\n            ctx.date = ctx.last_crawled_at;\n        \x7d else \x7b\n            ctx.date = (new Date()).getTime();\n            ctx.last_crawled_at = ctx.date;\n        \x7d\n        "),
    ("description", .str "Sets the date field based on last_crawled_at or current time")])]

/-- `SPLIT_URL_PROCESSOR` (setup.py lines 67-74). -/
def SPLIT_URL_PROCESSOR : JsonVal :=
  .obj [("uri_parts", .obj [
    ("field", .str "url"),
    ("target_field", .str "temp_url_parts"),
    ("keep_original", .bool true),
    ("ignore_failure", .bool true)])]

/-- `NORMALIZED_URL_PROCESSOR` (setup.py lines 75-102). -/
def NORMALIZED_URL_PROCESSOR : JsonVal :=
  .obj [("script", .obj [
    ("if", .str "ctx.containsKey(\x27temp_url_parts\x27)"),
    ("source", .str "\n    def parts = ctx.temp_url_parts;\n    String path = parts.path;\n    \n    // 1. Handle the path (remove trailing slash)\n    if (path != null && path.endsWith(\x27/\x27) && path.length() > 0) \x7b\n      path = path.substring(0, path.length() - 1);\n    \x7d else if (path == null) \x7b\n      path = \"\";\n    \x7d\n    \n    // 2. Rebuild the normalized URL\n    String normalized = parts.scheme + \"://\" + parts.domain;\n    \n    // 3. Add port only if it exists\n    if (parts.port != null) \x7b\n      normalized += \":\" + parts.port;\n    \x7d\n    \n    // 4. Add the cleaned path\n    normalized += path;\n    ctx.normalized_url = normalized;\n  ")])]

/-- `REMOVE_TEMP_URL_PARTS_PROCESSOR` (setup.py lines 103-108). -/
def REMOVE_TEMP_URL_PARTS_PROCESSOR : JsonVal :=
  .obj [("remove", .obj [
    ("field", .str "temp_url_parts"),
    ("ignore_failure", .bool true)])]

/-- `VERTEXAI_EMBEDDINGS_PROCESSOR` (setup.py lines 109-117). -/
def VERTEXAI_EMBEDDINGS_PROCESSOR : JsonVal :=
  .obj [("inference", .obj [
    ("model_id", .str "vertexai_embeddings"),
    ("input_output", .obj [
      ("input_field", .str "text"),
      ("output_field", .str ("embeddings." ++ EMBEDDING_MODEL_ID))])])]

/-- The environment `fetch_gcp_secret` runs in: the payload stored under the
fixed secret name, and a model of Python `json.loads` success (`json.loads`
is the standard library, so it is a parameter, not repo code). -/
structure SecretEnv where
  payload : String
  jsonParses : String → Bool

/-- `fetch_gcp_secret` (setup.py lines 129-143): fetch the payload, raise
`Exception("Secret is not a valid JSON string")` when it does not parse as
JSON, and return the payload string otherwise. -/
def fetch_gcp_secret (env : SecretEnv) : PyResult String :=
  if env.jsonParses env.payload then .ok env.payload
  else .exn "Secret is not a valid JSON string"

/-- `setup_ingest_pipeline` (setup.py lines 146-165): get the pipeline by
id; if found return the id; on `NotFoundError` attempt the put, returning
the id on success and `None` (not an exception) when the put raises; any
non-NotFound error from the get propagates as an exception. -/
def setup_ingest_pipeline (st : ESState) (pipeline_id description : String)
    (processors : List JsonVal) :
    PyResult (Option String) × ESState × List ESEvent :=
  if st.getPipelineErrors pipeline_id then
    (.exn "ApiError", st, [.getPipeline pipeline_id])
  else if st.pipelines pipeline_id then
    (.ok (some pipeline_id), st, [.getPipeline pipeline_id])
  else if st.putPipelineFails pipeline_id then
    (.ok none, st,
      [.getPipeline pipeline_id,
       .putPipeline pipeline_id description processors])
  else
    (.ok (some pipeline_id),
      { st with pipelines := fun i => i == pipeline_id || st.pipelines i },
      [.getPipeline pipeline_id,
       .putPipeline pipeline_id description processors])

/-- `create_vertexai_embedding_inference_endpoint` (setup.py lines 168-195):
fetch the secret first (its exception propagates, issuing no ES call), then
get-then-create the inference endpoint with the literal service settings. -/
def create_vertexai_embedding_inference_endpoint (env : SecretEnv)
    (st : ESState) (inference_id : String) :
    PyResult (Option String) × ESState × List ESEvent :=
  match fetch_gcp_secret env with
  | .exn e => (.exn e, st, [])
  | .ok service_account_json =>
    if st.getInferenceErrors inference_id then
      (.exn "ApiError", st, [.getInference "text_embedding" inference_id])
    else if st.inferenceEndpoints inference_id then
      (.ok (some inference_id), st, [.getInference "text_embedding" inference_id])
    else
      let service_settings :=
        [("model_id", JsonVal.str EMBEDDING_MODEL_ID),
         ("service_account_json", JsonVal.str service_account_json),
         ("location", JsonVal.str "us-central1"),
         ("project_id", JsonVal.str "snippets-api-434014")]
      if st.putInferenceFails inference_id then
        (.ok none, st,
          [.getInference "text_embedding" inference_id,
           .putInference inference_id "text_embedding" service_settings])
      else
        (.ok (some inference_id),
          { st with inferenceEndpoints :=
              fun i => i == inference_id || st.inferenceEndpoints i },
          [.getInference "text_embedding" inference_id,
           .putInference inference_id "text_embedding" service_settings])

/-- The normalizer pipeline's processor list (setup.py lines 201-209). -/
def normalizerProcessors : List JsonVal :=
  [JOIN_HEADERS_PROCESSOR, SET_BODY_PROCESSOR, REMOVE_FIELDS_PROCESSOR,
   SET_DATES_PROCESSOR, SPLIT_URL_PROCESSOR, NORMALIZED_URL_PROCESSOR,
   REMOVE_TEMP_URL_PARTS_PROCESSOR]

/-- `create_normalizer_pipeline` (setup.py lines 198-210). -/
def create_normalizer_pipeline (st : ESState) :
    PyResult (Option String) × ESState × List ESEvent :=
  setup_ingest_pipeline st "es-crawler-normalizer-pipeline"
    "Pipeline to normalize crawled data" normalizerProcessors

/-- `create_embedding_pipeline` (setup.py lines 213-217). -/
def create_embedding_pipeline (st : ESState) :
    PyResult (Option String) × ESState × List ESEvent :=
  setup_ingest_pipeline st "es-crawler-embedding-pipeline"
    "Pipeline to generate embeddings for crawled data"
    [VERTEXAI_EMBEDDINGS_PROCESSOR]

/-- Python truthiness of an `Optional[str]`: `None` and `""` are falsy.
Models the `if not x` guards in `create_self_served_crawler_pipelines`. -/
def pyFalsy : Option String → Bool
  | none => true
  | some s => s.isEmpty

/-- A by-name pipeline reference processor, `{"pipeline": {"name": n}}`. -/
def pipelineRef (n : String) : JsonVal :=
  .obj [("pipeline", .obj [("name", .str n)])]

/-- `create_self_served_crawler_pipelines` (setup.py lines 220-244):
normalizer, then embedding, then the composite pipeline chaining
`search-default-ingestion`, the normalizer and the embedding pipeline by
name; each step gated on the previous one's truthiness. -/
def create_self_served_crawler_pipelines (st : ESState) :
    PyResult Bool × ESState × List ESEvent :=
  match create_normalizer_pipeline st with
  | (.exn e, st1, ev1) => (.exn e, st1, ev1)
  | (.ok normalizer_pipeline_id, st1, ev1) =>
    if pyFalsy normalizer_pipeline_id then (.ok false, st1, ev1)
    else
      match create_embedding_pipeline st1 with
      | (.exn e, st2, ev2) => (.exn e, st2, ev1 ++ ev2)
      | (.ok embedding_pipeline_id, st2, ev2) =>
        if pyFalsy embedding_pipeline_id then (.ok false, st2, ev1 ++ ev2)
        else
          match setup_ingest_pipeline st2 "self-served-crawler-pipeline"
              "Pipeline for self-served crawler to normalize and generate embeddings"
              [pipelineRef "search-default-ingestion",
               pipelineRef (normalizer_pipeline_id.getD ""),
               pipelineRef (embedding_pipeline_id.getD "")] with
          | (.exn e, st3, ev3) => (.exn e, st3, ev1 ++ ev2 ++ ev3)
          | (.ok self_served_pipeline_id, st3, ev3) =>
            if pyFalsy self_served_pipeline_id then
              (.ok false, st3, ev1 ++ ev2 ++ ev3)
            else (.ok true, st3, ev1 ++ ev2 ++ ev3)

/-- The process environment `get_es_client` reads: the three environment
variables (`none` = unset, raising `KeyError`) and whether the cluster
answers the ping. -/
structure OSEnv where
  ES_HOST : Option String
  ES_PORT : Option String
  ES_API_KEY : Option String
  pingOk : Bool

/-- `get_es_client` (setup.py lines 120-126): read the three environment
variables (a missing one raises `KeyError`), build the client and assert
that it pings (`AssertionError` otherwise). -/
def get_es_client (env : OSEnv) : PyResult Unit :=
  match env.ES_HOST, env.ES_PORT, env.ES_API_KEY with
  | some _, some _, some _ =>
    if env.pingOk then .ok ()
    else .exn "Elasticsearch cluster is not reachable"
  | _, _, _ => .exn "KeyError"

/-- The `__main__` block (setup.py lines 247-261), returning the process
exit code and the trace of ES calls issued.  Faithful to the source: the
`else` clause of the `try` runs only when no exception was raised, so on an
exception the `except` branch prints and sets `success = False`, the two
`exit(...)` calls are skipped, the script falls off the end, and the
process exits with code 0. -/
def main_run (env : OSEnv) (st : ESState) : Nat × List ESEvent :=
  match get_es_client env with
  | .exn _ => (0, [])
  | .ok _ =>
    match create_self_served_crawler_pipelines st with
    | (.exn _, _, ev) => (0, ev)
    | (.ok success, _, ev) => (if success then 0 else 1, ev)

/-- The process exit code of a run of the entry point. -/
def main_exit_code (env : OSEnv) (st : ESState) : Nat :=
  (main_run env st).1

/-- Is the event a create (put) call? -/
def ESEvent.isPut : ESEvent → Bool
  | .putPipeline .. => true
  | .putInference .. => true
  | _ => false

/-- Is the event an inference-endpoint create call? -/
def ESEvent.isPutInference : ESEvent → Bool
  | .putInference .. => true
  | _ => false

/-- The create calls of a trace, in order. -/
def putEvents (tr : List ESEvent) : List ESEvent := tr.filter ESEvent.isPut

/-- The id of a put event (empty string on non-put events). -/
def ESEvent.putId : ESEvent → String
  | .putPipeline id _ _ => id
  | .putInference id _ _ => id
  | _ => ""

/-- Does the event carry the given resource id? -/
def ESEvent.mentionsId (target : String) : ESEvent → Bool
  | .getPipeline i => i == target
  | .putPipeline i _ _ => i == target
  | .getInference _ i => i == target
  | .putInference i _ _ => i == target

/-- Is the event an inference-endpoint API call (get or put)? -/
def ESEvent.isInferenceCall : ESEvent → Bool
  | .getInference .. => true
  | .putInference .. => true
  | _ => false

/-! Concrete cluster states and environments used to instantiate theorems. -/

/-- A healthy cluster where no resource exists yet and every call succeeds. -/
def stEmpty : ESState :=
  { pipelines := fun _ => false, inferenceEndpoints := fun _ => false,
    getPipelineErrors := fun _ => false, putPipelineFails := fun _ => false,
    getInferenceErrors := fun _ => false, putInferenceFails := fun _ => false }

/-- A healthy cluster where every resource already exists. -/
def stAllPresent : ESState :=
  { stEmpty with pipelines := fun _ => true, inferenceEndpoints := fun _ => true }

/-- A cluster where every existence check raises a non-NotFound error. -/
def stGetErr : ESState :=
  { stEmpty with getPipelineErrors := fun _ => true,
                 getInferenceErrors := fun _ => true }

/-- A cluster where nothing exists and every create call fails. -/
def stPutFail : ESState :=
  { stEmpty with putPipelineFails := fun _ => true,
                 putInferenceFails := fun _ => true }

/-- A cluster where nothing exists and only the embedding pipeline's create
call fails. -/
def stEmbedPutFail : ESState :=
  { stEmpty with
      putPipelineFails := fun i => i == "es-crawler-embedding-pipeline" }

/-- A secret store whose payload parses as JSON. -/
def secretOk : SecretEnv := { payload := "\x7b\x7d", jsonParses := fun _ => true }

/-- A secret store whose payload does not parse as JSON. -/
def secretBad : SecretEnv := { payload := "oops", jsonParses := fun _ => false }

/-- A process environment with all variables set and a reachable cluster. -/
def envOk : OSEnv :=
  { ES_HOST := some "localhost", ES_PORT := some "9200",
    ES_API_KEY := some "key", pingOk := true }

/-! Helper lemmas about `setup_ingest_pipeline`. -/

/-- Every event in an ensure-call's trace is the get for its id, or the put
for its id with exactly the given definition, the latter only when the id
was absent. -/
theorem setup_ev_cases (st : ESState) (id d : String) (p : List JsonVal) :
    ∀ e ∈ (setup_ingest_pipeline st id d p).2.2,
      e = ESEvent.getPipeline id ∨
      (e = ESEvent.putPipeline id d p ∧ st.pipelines id = false) := by
  unfold setup_ingest_pipeline
  split_ifs with h1 h2 h3 <;> simp_all

/-- The ensure-call's result is the id, `none`, or the propagated error. -/
theorem setup_fst_cases (st : ESState) (id d : String) (p : List JsonVal) :
    (setup_ingest_pipeline st id d p).1 = .ok (some id) ∨
    (setup_ingest_pipeline st id d p).1 = .ok none ∨
    (setup_ingest_pipeline st id d p).1 = .exn "ApiError" := by
  unfold setup_ingest_pipeline
  split_ifs <;> simp

/-- A successful ensure-call returns exactly the id it was given. -/
theorem setup_fst_some (st : ESState) (id d s : String) (p : List JsonVal)
    (h : (setup_ingest_pipeline st id d p).1 = .ok (some s)) : s = id := by
  rcases setup_fst_cases st id d p with h2 | h2 | h2 <;> rw [h2] at h <;>
    simp_all

/-- An ensure-call leaves every cluster field except `pipelines` unchanged. -/
theorem setup_faults (st : ESState) (id d : String) (p : List JsonVal) :
    (setup_ingest_pipeline st id d p).2.1.getPipelineErrors =
      st.getPipelineErrors ∧
    (setup_ingest_pipeline st id d p).2.1.putPipelineFails =
      st.putPipelineFails := by
  unfold setup_ingest_pipeline
  split_ifs <;> simp

/-- An ensure-call never deletes a pipeline: existence is monotone. -/
theorem setup_mono (st : ESState) (id d j : String) (p : List JsonVal)
    (h : st.pipelines j = true) :
    (setup_ingest_pipeline st id d p).2.1.pipelines j = true := by
  unfold setup_ingest_pipeline
  split_ifs <;> simp [h]

/-- Contrapositive of `setup_mono`: an id absent after an ensure-call was
absent before it. -/
theorem setup_mono_rev (st : ESState) (id d j : String) (p : List JsonVal)
    (h : (setup_ingest_pipeline st id d p).2.1.pipelines j = false) :
    st.pipelines j = false := by
  by_contra hc
  rw [setup_mono st id d j p (by revert hc; cases st.pipelines j <;> simp)]
    at h
  exact Bool.true_eq_false ▸ h

/-- C4: for every resource-ensure call (pipeline or inference endpoint),
a not-found existence check leads to exactly one create call whose body is
exactly the supplied literal definition, while a found existence check
leads to zero create calls and the resource's id being returned. -/
theorem C4_ensure_check_then_create :
    (∀ (st : ESState) (id d : String) (p : List JsonVal),
      st.getPipelineErrors id = false → st.pipelines id = false →
        putEvents (setup_ingest_pipeline st id d p).2.2 =
          [ESEvent.putPipeline id d p]) ∧
    (∀ (st : ESState) (id d : String) (p : List JsonVal),
      st.getPipelineErrors id = false → st.pipelines id = true →
        putEvents (setup_ingest_pipeline st id d p).2.2 = [] ∧
        (setup_ingest_pipeline st id d p).1 = .ok (some id)) ∧
    (∀ (env : SecretEnv) (st : ESState) (id : String),
      env.jsonParses env.payload = true →
      st.getInferenceErrors id = false → st.inferenceEndpoints id = false →
        putEvents (create_vertexai_embedding_inference_endpoint env st id).2.2 =
          [ESEvent.putInference id "text_embedding"
            [("model_id", JsonVal.str EMBEDDING_MODEL_ID),
             ("service_account_json", JsonVal.str env.payload),
             ("location", JsonVal.str "us-central1"),
             ("project_id", JsonVal.str "snippets-api-434014")]]) ∧
    (∀ (env : SecretEnv) (st : ESState) (id : String),
      env.jsonParses env.payload = true →
      st.getInferenceErrors id = false → st.inferenceEndpoints id = true →
        putEvents (create_vertexai_embedding_inference_endpoint env st id).2.2 =
          [] ∧
        (create_vertexai_embedding_inference_endpoint env st id).1 =
          .ok (some id)) := by
  refine ⟨?_, ?_, ?_, ?_⟩
  · intro st id d p h1 h2
    simp only [setup_ingest_pipeline, h1, h2, putEvents]
    split_ifs <;> simp_all [ESEvent.isPut]
  · intro st id d p h1 h2
    simp [setup_ingest_pipeline, h1, h2, putEvents, ESEvent.isPut]
  · intro env st id hj h1 h2
    simp [create_vertexai_embedding_inference_endpoint, fetch_gcp_secret,
      hj, h1, h2, putEvents, ESEvent.isPut]
    split_ifs <;> simp [ESEvent.isPut]
  · intro env st id hj h1 h2
    simp [create_vertexai_embedding_inference_endpoint, fetch_gcp_secret,
      hj, h1, h2, putEvents, ESEvent.isPut]

/-- Witness for C4 at concrete inputs. -/
theorem C4_witness :
    (putEvents (setup_ingest_pipeline stEmpty "p1" "d1" []).2.2 =
      [ESEvent.putPipeline "p1" "d1" []]) ∧
    (putEvents (setup_ingest_pipeline stAllPresent "p1" "d1" []).2.2 = [] ∧
      (setup_ingest_pipeline stAllPresent "p1" "d1" []).1 = .ok (some "p1")) ∧
    (putEvents
        (create_vertexai_embedding_inference_endpoint secretOk stEmpty
          "i1").2.2 =
      [ESEvent.putInference "i1" "text_embedding"
        [("model_id", JsonVal.str EMBEDDING_MODEL_ID),
         ("service_account_json", JsonVal.str secretOk.payload),
         ("location", JsonVal.str "us-central1"),
         ("project_id", JsonVal.str "snippets-api-434014")]]) ∧
    (putEvents
        (create_vertexai_embedding_inference_endpoint secretOk stAllPresent
          "i1").2.2 = [] ∧
      (create_vertexai_embedding_inference_endpoint secretOk stAllPresent
        "i1").1 = .ok (some "i1")) :=
  ⟨C4_ensure_check_then_create.1 stEmpty "p1" "d1" [] rfl rfl,
   C4_ensure_check_then_create.2.1 stAllPresent "p1" "d1" [] rfl rfl,
   C4_ensure_check_then_create.2.2.1 secretOk stEmpty "i1" rfl rfl rfl,
   C4_ensure_check_then_create.2.2.2 secretOk stAllPresent "i1" rfl rfl rfl⟩

/-- C5: a non-NotFound error from the existence check propagates to the
caller as an exception and no create call is issued, for both resource
kinds. -/
theorem C5_get_error_propagates :
    (∀ (st : ESState) (id d : String) (p : List JsonVal),
      st.getPipelineErrors id = true →
        (setup_ingest_pipeline st id d p).1 = .exn "ApiError" ∧
        putEvents (setup_ingest_pipeline st id d p).2.2 = []) ∧
    (∀ (env : SecretEnv) (st : ESState) (id : String),
      env.jsonParses env.payload = true → st.getInferenceErrors id = true →
        (create_vertexai_embedding_inference_endpoint env st id).1 =
          .exn "ApiError" ∧
        putEvents (create_vertexai_embedding_inference_endpoint env st id).2.2 =
          []) := by
  constructor
  · intro st id d p h
    simp [setup_ingest_pipeline, h, putEvents, ESEvent.isPut]
  · intro env st id hj h
    simp [create_vertexai_embedding_inference_endpoint, fetch_gcp_secret,
      hj, h, putEvents, ESEvent.isPut]

/-- Witness for C5 at concrete inputs. -/
theorem C5_witness :
    ((setup_ingest_pipeline stGetErr "p1" "d1" []).1 = .exn "ApiError" ∧
      putEvents (setup_ingest_pipeline stGetErr "p1" "d1" []).2.2 = []) ∧
    ((create_vertexai_embedding_inference_endpoint secretOk stGetErr "i1").1 =
        .exn "ApiError" ∧
      putEvents
        (create_vertexai_embedding_inference_endpoint secretOk stGetErr
          "i1").2.2 = []) :=
  ⟨C5_get_error_propagates.1 stGetErr "p1" "d1" [] rfl,
   C5_get_error_propagates.2 secretOk stGetErr "i1" rfl rfl⟩

/-- C6: when the resource is absent and the create call fails, the error is
converted into a `none` result returned to the caller, never re-raised;
the create call was issued. -/
theorem C6_create_error_returns_none :
    (∀ (st : ESState) (id d : String) (p : List JsonVal),
      st.getPipelineErrors id = false → st.pipelines id = false →
      st.putPipelineFails id = true →
        setup_ingest_pipeline st id d p =
          (.ok none, st,
            [.getPipeline id, .putPipeline id d p])) ∧
    (∀ (env : SecretEnv) (st : ESState) (id : String),
      env.jsonParses env.payload = true →
      st.getInferenceErrors id = false → st.inferenceEndpoints id = false →
      st.putInferenceFails id = true →
        (create_vertexai_embedding_inference_endpoint env st id).1 =
          .ok none ∧
        putEvents (create_vertexai_embedding_inference_endpoint env st id).2.2 =
          [ESEvent.putInference id "text_embedding"
            [("model_id", JsonVal.str EMBEDDING_MODEL_ID),
             ("service_account_json", JsonVal.str env.payload),
             ("location", JsonVal.str "us-central1"),
             ("project_id", JsonVal.str "snippets-api-434014")]]) := by
  constructor
  · intro st id d p h1 h2 h3
    simp [setup_ingest_pipeline, h1, h2, h3]
  · intro env st id hj h1 h2 h3
    simp [create_vertexai_embedding_inference_endpoint, fetch_gcp_secret,
      hj, h1, h2, h3, putEvents, ESEvent.isPut]

/-- Witness for C6 at concrete inputs. -/
theorem C6_witness :
    (setup_ingest_pipeline stPutFail "p1" "d1" [] =
      (.ok none, stPutFail,
        [.getPipeline "p1", .putPipeline "p1" "d1" []])) ∧
    ((create_vertexai_embedding_inference_endpoint secretOk stPutFail "i1").1 =
        .ok none ∧
      putEvents
        (create_vertexai_embedding_inference_endpoint secretOk stPutFail
          "i1").2.2 =
        [ESEvent.putInference "i1" "text_embedding"
          [("model_id", JsonVal.str EMBEDDING_MODEL_ID),
           ("service_account_json", JsonVal.str secretOk.payload),
           ("location", JsonVal.str "us-central1"),
           ("project_id", JsonVal.str "snippets-api-434014")]]) :=
  ⟨C6_create_error_returns_none.1 stPutFail "p1" "d1" [] rfl rfl rfl,
   C6_create_error_returns_none.2 secretOk stPutFail "i1" rfl rfl rfl rfl⟩

/-- C8: the secret fetcher returns the payload only when it parses as JSON
and raises otherwise, and a non-JSON payload makes the inference-endpoint
provisioning step fail before any existence check or create call is
issued (its trace is empty). -/
theorem C8_secret_validated_before_inference_calls :
    (∀ env : SecretEnv, env.jsonParses env.payload = true →
      fetch_gcp_secret env = .ok env.payload) ∧
    (∀ env : SecretEnv, env.jsonParses env.payload = false →
      fetch_gcp_secret env = .exn "Secret is not a valid JSON string") ∧
    (∀ (env : SecretEnv) (st : ESState) (id : String),
      env.jsonParses env.payload = false →
        create_vertexai_embedding_inference_endpoint env st id =
          (.exn "Secret is not a valid JSON string", st, [])) := by
  refine ⟨fun env h => ?_, fun env h => ?_, fun env st id h => ?_⟩
  · simp [fetch_gcp_secret, h]
  · simp [fetch_gcp_secret, h]
  · simp [create_vertexai_embedding_inference_endpoint, fetch_gcp_secret, h]

/-- Witness for C8 at concrete inputs. -/
theorem C8_witness :
    fetch_gcp_secret secretOk = .ok secretOk.payload ∧
    fetch_gcp_secret secretBad = .exn "Secret is not a valid JSON string" ∧
    create_vertexai_embedding_inference_endpoint secretBad stEmpty "i1" =
      (.exn "Secret is not a valid JSON string", stEmpty, []) :=
  ⟨C8_secret_validated_before_inference_calls.1 secretOk rfl,
   C8_secret_validated_before_inference_calls.2.1 secretBad rfl,
   C8_secret_validated_before_inference_calls.2.2 secretBad stEmpty "i1" rfl⟩

/-- C10: every resource-ensure call returns either exactly the identifier
argument it was given or the `none` failure signal (or propagates an
exception) — never any other string. -/
theorem C10_returns_argument_id_or_none :
    (∀ (st : ESState) (id d : String) (p : List JsonVal),
      (setup_ingest_pipeline st id d p).1 = .ok (some id) ∨
      (setup_ingest_pipeline st id d p).1 = .ok none ∨
      (setup_ingest_pipeline st id d p).1 = .exn "ApiError") ∧
    (∀ (env : SecretEnv) (st : ESState) (id : String),
      (create_vertexai_embedding_inference_endpoint env st id).1 =
        .ok (some id) ∨
      (create_vertexai_embedding_inference_endpoint env st id).1 = .ok none ∨
      (create_vertexai_embedding_inference_endpoint env st id).1 =
        .exn "ApiError" ∨
      (create_vertexai_embedding_inference_endpoint env st id).1 =
        .exn "Secret is not a valid JSON string") := by
  constructor
  · intro st id d p
    exact setup_fst_cases st id d p
  · intro env st id
    unfold create_vertexai_embedding_inference_endpoint fetch_gcp_secret
    split_ifs <;> simp

/-! Helper lemmas about `create_self_served_crawler_pipelines`. -/

/-- Master decomposition of the full run's trace: every event issued is one
of the six possible pipeline calls with its literal definition, and a
create call only occurs for an id that was absent in the initial cluster
state. -/
theorem crawler_trace_cases (st : ESState) :
    ∀ e ∈ (create_self_served_crawler_pipelines st).2.2,
      e = ESEvent.getPipeline "es-crawler-normalizer-pipeline" ∨
      (e = ESEvent.putPipeline "es-crawler-normalizer-pipeline"
            "Pipeline to normalize crawled data" normalizerProcessors ∧
        st.pipelines "es-crawler-normalizer-pipeline" = false) ∨
      e = ESEvent.getPipeline "es-crawler-embedding-pipeline" ∨
      (e = ESEvent.putPipeline "es-crawler-embedding-pipeline"
            "Pipeline to generate embeddings for crawled data"
            [VERTEXAI_EMBEDDINGS_PROCESSOR] ∧
        st.pipelines "es-crawler-embedding-pipeline" = false) ∨
      e = ESEvent.getPipeline "self-served-crawler-pipeline" ∨
      (e = ESEvent.putPipeline "self-served-crawler-pipeline"
            "Pipeline for self-served crawler to normalize and generate embeddings"
            [pipelineRef "search-default-ingestion",
             pipelineRef "es-crawler-normalizer-pipeline",
             pipelineRef "es-crawler-embedding-pipeline"] ∧
        st.pipelines "self-served-crawler-pipeline" = false) := by
  intro e he
  have hpn : pyFalsy (some "es-crawler-normalizer-pipeline") = false := rfl
  have hpe : pyFalsy (some "es-crawler-embedding-pipeline") = false := rfl
  have hpc : pyFalsy (some "self-served-crawler-pipeline") = false := rfl
  have hpnone : pyFalsy none = true := rfl
  rcases h1 : setup_ingest_pipeline st "es-crawler-normalizer-pipeline"
      "Pipeline to normalize crawled data" normalizerProcessors
    with ⟨r1, st1, ev1⟩
  have hc1 : create_normalizer_pipeline st = (r1, st1, ev1) := h1
  have hev1 := setup_ev_cases st "es-crawler-normalizer-pipeline"
    "Pipeline to normalize crawled data" normalizerProcessors
  rw [h1] at hev1
  rcases r1 with oid1 | e1
  · rcases oid1 with _ | s
    · simp [create_self_served_crawler_pipelines, hc1, hpnone] at he
      rcases hev1 e he with h | h
      · exact Or.inl h
      · exact Or.inr (Or.inl h)
    · have hs : s = "es-crawler-normalizer-pipeline" :=
        setup_fst_some _ _ _ _ _ (by rw [h1])
      subst hs
      rcases h2 : setup_ingest_pipeline st1 "es-crawler-embedding-pipeline"
          "Pipeline to generate embeddings for crawled data"
          [VERTEXAI_EMBEDDINGS_PROCESSOR] with ⟨r2, st2, ev2⟩
      have hc2 : create_embedding_pipeline st1 = (r2, st2, ev2) := h2
      have hev2 := setup_ev_cases st1 "es-crawler-embedding-pipeline"
        "Pipeline to generate embeddings for crawled data"
        [VERTEXAI_EMBEDDINGS_PROCESSOR]
      rw [h2] at hev2
      have habs2 : st1.pipelines "es-crawler-embedding-pipeline" = false →
          st.pipelines "es-crawler-embedding-pipeline" = false := by
        intro hf
        refine setup_mono_rev st "es-crawler-normalizer-pipeline"
          "Pipeline to normalize crawled data" "es-crawler-embedding-pipeline"
          normalizerProcessors ?_
        rw [h1]
        exact hf
      rcases r2 with oid2 | e2
      · rcases oid2 with _ | t
        · have he2 : e ∈ ev1 ∨ e ∈ ev2 := by
            simp [create_self_served_crawler_pipelines, hc1, hc2, hpn,
              hpnone] at he
            tauto
          rcases he2 with he2 | he2
          · rcases hev1 e he2 with h | h
            · exact Or.inl h
            · exact Or.inr (Or.inl h)
          · rcases hev2 e he2 with h | h
            · exact Or.inr (Or.inr (Or.inl h))
            · exact Or.inr (Or.inr (Or.inr (Or.inl ⟨h.1, habs2 h.2⟩)))
        · have ht : t = "es-crawler-embedding-pipeline" :=
            setup_fst_some _ _ _ _ _ (by rw [h2])
          subst ht
          rcases h3 : setup_ingest_pipeline st2 "self-served-crawler-pipeline"
              "Pipeline for self-served crawler to normalize and generate embeddings"
              [pipelineRef "search-default-ingestion",
               pipelineRef "es-crawler-normalizer-pipeline",
               pipelineRef "es-crawler-embedding-pipeline"]
            with ⟨r3, st3, ev3⟩
          have hev3 := setup_ev_cases st2 "self-served-crawler-pipeline"
            "Pipeline for self-served crawler to normalize and generate embeddings"
            [pipelineRef "search-default-ingestion",
             pipelineRef "es-crawler-normalizer-pipeline",
             pipelineRef "es-crawler-embedding-pipeline"]
          rw [h3] at hev3
          have habs3 : st2.pipelines "self-served-crawler-pipeline" = false →
              st.pipelines "self-served-crawler-pipeline" = false := by
            intro hf
            refine setup_mono_rev st "es-crawler-normalizer-pipeline"
              "Pipeline to normalize crawled data" "self-served-crawler-pipeline"
              normalizerProcessors ?_
            rw [h1]
            refine setup_mono_rev st1 "es-crawler-embedding-pipeline"
              "Pipeline to generate embeddings for crawled data"
              "self-served-crawler-pipeline" [VERTEXAI_EMBEDDINGS_PROCESSOR] ?_
            rw [h2]
            exact hf
          have he2 : e ∈ ev1 ∨ e ∈ ev2 ∨ e ∈ ev3 := by
            rcases r3 with oid3 | e3
            · rcases oid3 with _ | u
              · simp [create_self_served_crawler_pipelines, hc1, hc2, hpn,
                  hpe, h3, hpnone] at he
                tauto
              · have hu : u = "self-served-crawler-pipeline" :=
                  setup_fst_some _ _ _ _ _ (by rw [h3])
                subst hu
                simp [create_self_served_crawler_pipelines, hc1, hc2, hpn,
                  hpe, hpc, h3] at he
                tauto
            · simp [create_self_served_crawler_pipelines, hc1, hc2, hpn,
                hpe, h3] at he
              tauto
          rcases he2 with he2 | he2 | he2
          · rcases hev1 e he2 with h | h
            · exact Or.inl h
            · exact Or.inr (Or.inl h)
          · rcases hev2 e he2 with h | h
            · exact Or.inr (Or.inr (Or.inl h))
            · exact Or.inr (Or.inr (Or.inr (Or.inl ⟨h.1, habs2 h.2⟩)))
          · rcases hev3 e he2 with h | h
            · exact Or.inr (Or.inr (Or.inr (Or.inr (Or.inl h))))
            · exact Or.inr (Or.inr (Or.inr (Or.inr (Or.inr
                ⟨h.1, habs3 h.2⟩))))
      · have he2 : e ∈ ev1 ∨ e ∈ ev2 := by
          simp [create_self_served_crawler_pipelines, hc1, hc2, hpn] at he
          tauto
        rcases he2 with he2 | he2
        · rcases hev1 e he2 with h | h
          · exact Or.inl h
          · exact Or.inr (Or.inl h)
        · rcases hev2 e he2 with h | h
          · exact Or.inr (Or.inr (Or.inl h))
          · exact Or.inr (Or.inr (Or.inr (Or.inl ⟨h.1, habs2 h.2⟩)))
  · simp only [create_self_served_crawler_pipelines, hc1] at he
    rcases hev1 e he with h | h
    · exact Or.inl h
    · exact Or.inr (Or.inl h)

/-- Events of an ensure-call never mention a different resource id. -/
theorem setup_not_mentions (st : ESState) (id d j : String) (p : List JsonVal)
    (hj : (id == j) = false) :
    ∀ e ∈ (setup_ingest_pipeline st id d p).2.2,
      e.mentionsId j = false := by
  intro e he
  rcases setup_ev_cases st id d p e he with h | ⟨h, -⟩ <;>
    (subst h; simp [ESEvent.mentionsId, hj])

/-- A fault-free run (no transport errors, no create failures) returns
success and leaves a state where all three pipelines exist and the fault
predicates are unchanged. -/
theorem crawler_ff (st : ESState)
    (hg : ∀ i, st.getPipelineErrors i = false)
    (hf : ∀ i, st.putPipelineFails i = false) :
    (create_self_served_crawler_pipelines st).1 = .ok true ∧
    (∀ i, (create_self_served_crawler_pipelines st).2.1.getPipelineErrors i =
      false) ∧
    (∀ i, (create_self_served_crawler_pipelines st).2.1.putPipelineFails i =
      false) ∧
    (create_self_served_crawler_pipelines st).2.1.pipelines
      "es-crawler-normalizer-pipeline" = true ∧
    (create_self_served_crawler_pipelines st).2.1.pipelines
      "es-crawler-embedding-pipeline" = true ∧
    (create_self_served_crawler_pipelines st).2.1.pipelines
      "self-served-crawler-pipeline" = true := by
  have hpn : pyFalsy (some "es-crawler-normalizer-pipeline") = false := rfl
  have hpe : pyFalsy (some "es-crawler-embedding-pipeline") = false := rfl
  have hpc : pyFalsy (some "self-served-crawler-pipeline") = false := rfl
  cases hn : st.pipelines "es-crawler-normalizer-pipeline" <;>
  cases he : st.pipelines "es-crawler-embedding-pipeline" <;>
  cases hc : st.pipelines "self-served-crawler-pipeline" <;>
    simp [create_self_served_crawler_pipelines, create_normalizer_pipeline,
      create_embedding_pipeline, setup_ingest_pipeline, hg, hf, hn, he, hc,
      hpn, hpe, hpc]

/-- When all three pipelines already exist and existence checks succeed, a
run issues the three gets, zero creates, succeeds and leaves the state
untouched. -/
theorem crawler_all_present (st : ESState)
    (hg : ∀ i, st.getPipelineErrors i = false)
    (hn : st.pipelines "es-crawler-normalizer-pipeline" = true)
    (he : st.pipelines "es-crawler-embedding-pipeline" = true)
    (hc : st.pipelines "self-served-crawler-pipeline" = true) :
    create_self_served_crawler_pipelines st =
      (.ok true, st,
        [.getPipeline "es-crawler-normalizer-pipeline",
         .getPipeline "es-crawler-embedding-pipeline",
         .getPipeline "self-served-crawler-pipeline"]) := by
  have hpn : pyFalsy (some "es-crawler-normalizer-pipeline") = false := rfl
  have hpe : pyFalsy (some "es-crawler-embedding-pipeline") = false := rfl
  have hpc : pyFalsy (some "self-served-crawler-pipeline") = false := rfl
  simp [create_self_served_crawler_pipelines, create_normalizer_pipeline,
    create_embedding_pipeline, setup_ingest_pipeline, hg, hn, he, hc,
    hpn, hpe, hpc]

/-- The full trace of a run against the fresh, fault-free cluster. -/
theorem crawler_stEmpty_trace :
    (create_self_served_crawler_pipelines stEmpty).2.2 =
      [.getPipeline "es-crawler-normalizer-pipeline",
       .putPipeline "es-crawler-normalizer-pipeline"
         "Pipeline to normalize crawled data" normalizerProcessors,
       .getPipeline "es-crawler-embedding-pipeline",
       .putPipeline "es-crawler-embedding-pipeline"
         "Pipeline to generate embeddings for crawled data"
         [VERTEXAI_EMBEDDINGS_PROCESSOR],
       .getPipeline "self-served-crawler-pipeline",
       .putPipeline "self-served-crawler-pipeline"
         "Pipeline for self-served crawler to normalize and generate embeddings"
         [pipelineRef "search-default-ingestion",
          pipelineRef "es-crawler-normalizer-pipeline",
          pipelineRef "es-crawler-embedding-pipeline"]] := rfl

/-- C1: the `__main__` block exits 0 on a clean success and 1 when a
provisioning step reports failure, but an uncaught exception (here: the
cluster fails the ping) makes the `except` branch run, both `exit` calls
in the skipped `else` branch are bypassed, and the process exits 0 — not
the nonzero code the specification requires. -/
theorem C1_exception_exits_zero :
    (∀ (env : OSEnv) (st : ESState) (msg : String),
      get_es_client env = .exn msg → main_exit_code env st = 0) ∧
    main_exit_code { envOk with pingOk := false } stEmpty = 0 ∧
    main_exit_code envOk
      { stEmpty with putPipelineFails := fun _ => true } = 1 ∧
    main_exit_code envOk stEmpty = 0 := by
  refine ⟨?_, rfl, rfl, rfl⟩
  intro env st msg h
  simp [main_exit_code, main_run, h]

/-- Witness for C1 at concrete inputs. -/
theorem C1_witness :
    get_es_client { envOk with pingOk := false } =
      .exn "Elasticsearch cluster is not reachable" ∧
    main_exit_code { envOk with pingOk := false } stEmpty = 0 :=
  ⟨rfl, C1_exception_exits_zero.1 { envOk with pingOk := false } stEmpty
    "Elasticsearch cluster is not reachable" rfl⟩

/-- C2 counterexample: against a cluster reporting every resource absent a
full run issues exactly three create calls, not four, none of them an
inference-endpoint call, and exits 0. -/
theorem C2_counterexample :
    (putEvents (main_run envOk stEmpty).2).length = 3 ∧
    (putEvents (main_run envOk stEmpty).2).length ≠ 4 ∧
    (main_run envOk stEmpty).2.all (fun e => !e.isInferenceCall) = true ∧
    (main_run envOk stEmpty).1 = 0 := by
  refine ⟨rfl, by decide, rfl, rfl⟩

/-- C2 (amended): against a cluster reporting every resource absent a full
run issues exactly three create calls, in the order normalizer pipeline,
embedding pipeline, composite pipeline, each with its literal definition,
and exits 0; no run ever issues an inference-endpoint call, because
`create_vertexai_embedding_inference_endpoint` is never invoked by the
sequence. -/
theorem C2_three_creates_in_order :
    putEvents (main_run envOk stEmpty).2 =
      [.putPipeline "es-crawler-normalizer-pipeline"
         "Pipeline to normalize crawled data" normalizerProcessors,
       .putPipeline "es-crawler-embedding-pipeline"
         "Pipeline to generate embeddings for crawled data"
         [VERTEXAI_EMBEDDINGS_PROCESSOR],
       .putPipeline "self-served-crawler-pipeline"
         "Pipeline for self-served crawler to normalize and generate embeddings"
         [pipelineRef "search-default-ingestion",
          pipelineRef "es-crawler-normalizer-pipeline",
          pipelineRef "es-crawler-embedding-pipeline"]] ∧
    (main_run envOk stEmpty).1 = 0 ∧
    (∀ (env : OSEnv) (st : ESState),
      ∀ e ∈ (main_run env st).2, e.isInferenceCall = false) := by
  refine ⟨rfl, rfl, ?_⟩
  intro env st e he
  unfold main_run at he
  rcases h0 : get_es_client env with u | msg
  · rw [h0] at he
    rcases h : create_self_served_crawler_pipelines st with ⟨r, st2, ev⟩
    rw [h] at he
    have he2 : e ∈ ev := by
      rcases r with b | msg <;> simpa using he
    have he3 : e ∈ (create_self_served_crawler_pipelines st).2.2 := by
      rw [h]
      exact he2
    rcases crawler_trace_cases st e he3 with
      h | ⟨h, -⟩ | h | ⟨h, -⟩ | h | ⟨h, -⟩ <;> (subst h; rfl)
  · rw [h0] at he
    simp at he

/-- Witness for C2 (amended) at a concrete event of a concrete run. -/
theorem C2_witness :
    (ESEvent.getPipeline "es-crawler-normalizer-pipeline").isInferenceCall =
      false :=
  C2_three_creates_in_order.2.2 envOk stEmpty
    (ESEvent.getPipeline "es-crawler-normalizer-pipeline") (List.Mem.head _)

/-- C3: against any fault-free cluster a first run succeeds, a second run
against the resulting state issues zero create calls and returns the same
success value, and neither run issues a create call for an id whose
existence check succeeded (an id already present when that run started). -/
theorem C3_idempotent_rerun (st : ESState)
    (hg : ∀ i, st.getPipelineErrors i = false)
    (hf : ∀ i, st.putPipelineFails i = false) :
    (create_self_served_crawler_pipelines st).1 = .ok true ∧
    (create_self_served_crawler_pipelines
        (create_self_served_crawler_pipelines st).2.1).1 =
      (create_self_served_crawler_pipelines st).1 ∧
    putEvents (create_self_served_crawler_pipelines
        (create_self_served_crawler_pipelines st).2.1).2.2 = [] ∧
    (∀ (i d : String) (p : List JsonVal),
      ESEvent.putPipeline i d p ∈
          (create_self_served_crawler_pipelines st).2.2 →
        st.pipelines i = false) ∧
    (∀ (i d : String) (p : List JsonVal),
      ESEvent.putPipeline i d p ∈
          (create_self_served_crawler_pipelines
            (create_self_served_crawler_pipelines st).2.1).2.2 →
        False) := by
  obtain ⟨hr, hg2, hf2, hn2, he2, hc2⟩ := crawler_ff st hg hf
  have h2 := crawler_all_present _ hg2 hn2 he2 hc2
  refine ⟨hr, ?_, ?_, ?_, ?_⟩
  · rw [h2, hr]
  · rw [h2]
    rfl
  · intro i d p hm
    rcases crawler_trace_cases st _ hm with
      h | ⟨h, ha⟩ | h | ⟨h, ha⟩ | h | ⟨h, ha⟩ <;> simp_all
  · intro i d p hm
    rw [h2] at hm
    simp at hm

/-- Witness for C3 at the fresh, fault-free cluster. -/
theorem C3_witness :
    (create_self_served_crawler_pipelines stEmpty).1 = .ok true ∧
    (create_self_served_crawler_pipelines
        (create_self_served_crawler_pipelines stEmpty).2.1).1 =
      (create_self_served_crawler_pipelines stEmpty).1 ∧
    putEvents (create_self_served_crawler_pipelines
        (create_self_served_crawler_pipelines stEmpty).2.1).2.2 = [] ∧
    (∀ (i d : String) (p : List JsonVal),
      ESEvent.putPipeline i d p ∈
          (create_self_served_crawler_pipelines stEmpty).2.2 →
        stEmpty.pipelines i = false) ∧
    (∀ (i d : String) (p : List JsonVal),
      ESEvent.putPipeline i d p ∈
          (create_self_served_crawler_pipelines
            (create_self_served_crawler_pipelines stEmpty).2.1).2.2 →
        False) :=
  C3_idempotent_rerun stEmpty (fun _ => rfl) (fun _ => rfl)

/-- C7: the sequence is fail-fast — when the normalizer ensure-call
returns the failure signal the run reports failure and its trace touches
neither the embedding pipeline nor the composite pipeline; when the
embedding ensure-call (run after the normalizer) returns the failure
signal the run does not succeed and its trace never touches the composite
pipeline. -/
theorem C7_fail_fast :
    (∀ st : ESState, (create_normalizer_pipeline st).1 = .ok none →
      (create_self_served_crawler_pipelines st).1 = .ok false ∧
      (∀ e ∈ (create_self_served_crawler_pipelines st).2.2,
        e.mentionsId "es-crawler-embedding-pipeline" = false ∧
        e.mentionsId "self-served-crawler-pipeline" = false)) ∧
    (∀ st : ESState,
      (create_embedding_pipeline
        (create_normalizer_pipeline st).2.1).1 = .ok none →
      (create_self_served_crawler_pipelines st).1 ≠ .ok true ∧
      (∀ e ∈ (create_self_served_crawler_pipelines st).2.2,
        e.mentionsId "self-served-crawler-pipeline" = false)) := by
  constructor
  · intro st hfail
    rcases h1 : setup_ingest_pipeline st "es-crawler-normalizer-pipeline"
        "Pipeline to normalize crawled data" normalizerProcessors
      with ⟨r1, st1, ev1⟩
    have hc1 : create_normalizer_pipeline st = (r1, st1, ev1) := h1
    rw [hc1] at hfail
    simp only at hfail
    subst hfail
    have hpnone : pyFalsy none = true := rfl
    have hrun : create_self_served_crawler_pipelines st =
        (.ok false, st1, ev1) := by
      simp [create_self_served_crawler_pipelines, hc1, hpnone]
    rw [hrun]
    refine ⟨rfl, fun e he => ⟨?_, ?_⟩⟩
    · refine setup_not_mentions st "es-crawler-normalizer-pipeline"
        "Pipeline to normalize crawled data" "es-crawler-embedding-pipeline"
        normalizerProcessors (by decide) e ?_
      rw [h1]
      exact he
    · refine setup_not_mentions st "es-crawler-normalizer-pipeline"
        "Pipeline to normalize crawled data" "self-served-crawler-pipeline"
        normalizerProcessors (by decide) e ?_
      rw [h1]
      exact he
  · intro st hfail
    rcases h1 : setup_ingest_pipeline st "es-crawler-normalizer-pipeline"
        "Pipeline to normalize crawled data" normalizerProcessors
      with ⟨r1, st1, ev1⟩
    have hc1 : create_normalizer_pipeline st = (r1, st1, ev1) := h1
    rw [hc1] at hfail
    have hpnone : pyFalsy none = true := rfl
    have hm1 : ∀ e ∈ ev1,
        ESEvent.mentionsId "self-served-crawler-pipeline" e = false := by
      intro e he
      refine setup_not_mentions st "es-crawler-normalizer-pipeline"
        "Pipeline to normalize crawled data" "self-served-crawler-pipeline"
        normalizerProcessors (by decide) e ?_
      rw [h1]
      exact he
    rcases r1 with oid1 | e1
    · rcases oid1 with _ | s
      · have hrun : create_self_served_crawler_pipelines st =
            (.ok false, st1, ev1) := by
          simp [create_self_served_crawler_pipelines, hc1, hpnone]
        rw [hrun]
        exact ⟨by simp, hm1⟩
      · have hs : s = "es-crawler-normalizer-pipeline" :=
          setup_fst_some _ _ _ _ _ (by rw [h1])
        subst hs
        have hpn : pyFalsy (some "es-crawler-normalizer-pipeline") = false :=
          rfl
        rcases h2 : setup_ingest_pipeline st1 "es-crawler-embedding-pipeline"
            "Pipeline to generate embeddings for crawled data"
            [VERTEXAI_EMBEDDINGS_PROCESSOR] with ⟨r2, st2, ev2⟩
        have hc2 : create_embedding_pipeline st1 = (r2, st2, ev2) := h2
        rw [hc2] at hfail
        simp only at hfail
        subst hfail
        have hm2 : ∀ e ∈ ev2,
            ESEvent.mentionsId "self-served-crawler-pipeline" e = false := by
          intro e he
          refine setup_not_mentions st1 "es-crawler-embedding-pipeline"
            "Pipeline to generate embeddings for crawled data"
            "self-served-crawler-pipeline" [VERTEXAI_EMBEDDINGS_PROCESSOR]
            (by decide) e ?_
          rw [h2]
          exact he
        have hrun : create_self_served_crawler_pipelines st =
            (.ok false, st2, ev1 ++ ev2) := by
          simp [create_self_served_crawler_pipelines, hc1, hc2, hpn, hpnone]
        rw [hrun]
        refine ⟨by simp, fun e he => ?_⟩
        rcases List.mem_append.mp he with h | h
        · exact hm1 e h
        · exact hm2 e h
    · have hrun : create_self_served_crawler_pipelines st =
          (.exn e1, st1, ev1) := by
        simp [create_self_served_crawler_pipelines, hc1]
      rw [hrun]
      exact ⟨by simp, hm1⟩

/-- Witness for C7 at concrete inputs. -/
theorem C7_witness :
    ((create_self_served_crawler_pipelines stPutFail).1 = .ok false ∧
      (∀ e ∈ (create_self_served_crawler_pipelines stPutFail).2.2,
        e.mentionsId "es-crawler-embedding-pipeline" = false ∧
        e.mentionsId "self-served-crawler-pipeline" = false)) ∧
    ((create_self_served_crawler_pipelines stEmbedPutFail).1 ≠ .ok true ∧
      (∀ e ∈ (create_self_served_crawler_pipelines stEmbedPutFail).2.2,
        e.mentionsId "self-served-crawler-pipeline" = false)) :=
  ⟨C7_fail_fast.1 stPutFail rfl, C7_fail_fast.2 stEmbedPutFail rfl⟩

/-- C9: whenever the run issues the create call for the composite
pipeline, its definition is exactly three by-name pipeline references, in
the order `search-default-ingestion`, the normalizer pipeline, the
embedding pipeline. -/
theorem C9_composite_processors (st : ESState) (d : String)
    (p : List JsonVal)
    (hm : ESEvent.putPipeline "self-served-crawler-pipeline" d p ∈
      (create_self_served_crawler_pipelines st).2.2) :
    p = [pipelineRef "search-default-ingestion",
         pipelineRef "es-crawler-normalizer-pipeline",
         pipelineRef "es-crawler-embedding-pipeline"] := by
  rcases crawler_trace_cases st _ hm with
    h | ⟨h, -⟩ | h | ⟨h, -⟩ | h | ⟨h, -⟩ <;> simp_all

/-- Witness for C9 at the fresh, fault-free cluster. -/
theorem C9_witness :
    [pipelineRef "search-default-ingestion",
     pipelineRef "es-crawler-normalizer-pipeline",
     pipelineRef "es-crawler-embedding-pipeline"] =
      [pipelineRef "search-default-ingestion",
       pipelineRef "es-crawler-normalizer-pipeline",
       pipelineRef "es-crawler-embedding-pipeline"] :=
  C9_composite_processors stEmpty
    "Pipeline for self-served crawler to normalize and generate embeddings"
    [pipelineRef "search-default-ingestion",
     pipelineRef "es-crawler-normalizer-pipeline",
     pipelineRef "es-crawler-embedding-pipeline"]
    (by rw [crawler_stEmpty_trace]; simp)

end ElasticCrawler
